import Mathlib

/-!
Verification model of the Sonoff/Tasmota to Zigbee2MQTT bridge scripts
(`Sonoff_to_Z2M.js`, the multi-relay engine, and the Tasmota bridge variant).

The scripts are event handlers over a process-wide `Map<MAC, DeviceInfo>`.
We embed them as pure functions: each handler takes the registry (an
association list with JavaScript `Map` semantics) and returns the new
registry together with the outward MQTT publishes and the native
`setState` commands it issues.  JavaScript values that flow through the
handlers (state-store reads, parsed JSON payload values) are modelled by
`JSVal`; `JSVal.null` stands for both `null` and `undefined` (they behave
identically in every truthiness/strict-equality test the scripts perform).
Wall-clock-derived fields (`date_code`) and the purely numeric
`network_address` field are omitted from the device definition record:
no handler and no claim reads them.
-/

/-- A JavaScript value as it appears in the bridge's state reads and
parsed command payloads. `null` also stands for `undefined`. -/
inductive JSVal where
  | null : JSVal
  | bool : Bool → JSVal
  | str : String → JSVal
  | num : Int → JSVal
deriving DecidableEq, Repr

/-- JavaScript truthiness of a `JSVal` (`!!v`). -/
def jsTruthy : JSVal → Bool
  | .null => false
  | .bool b => b
  | .str s => s != ""
  | .num n => n != 0

/-- The coercion `v === true || v === 'true' || v === 1` used by
`handleSonoffPowerChange` and `handleSonoffAliveChange`. -/
def jsIsTrue (v : JSVal) : Bool :=
  v == JSVal.bool true || v == JSVal.str "true" || v == JSVal.num 1

/-- `states[i]` on a JavaScript array: out-of-bounds reads give
`undefined`, which we model as `JSVal.null` (both are falsy and both are
strictly unequal to every boolean). -/
def getJS (l : List JSVal) (i : Nat) : JSVal :=
  l.getD i JSVal.null

/-- `l[i] = v` on a JavaScript array: in-bounds writes replace, writes
past the end extend the array (holes read back as `undefined`). -/
def jsArraySet (l : List JSVal) (i : Nat) (v : JSVal) : List JSVal :=
  if i < l.length then l.set i v
  else l ++ List.replicate (i - l.length) JSVal.null ++ [v]

/-- JSON values appearing in the payload objects the bridge publishes. -/
inductive JVal where
  | str : String → JVal
  | num : Nat → JVal
deriving DecidableEq, Repr

/-- One `publishMqtt(topic, payload, retain)` call.  `topic` is the
suffix below the `zigbee2mqtt` base topic; `payload` is the JSON object
in insertion order. -/
structure Publish where
  topic : String
  payload : List (String × JVal)
  retain : Bool
deriving DecidableEq, Repr

/-- One `setState(powerStateId, newState)` call towards the Sonoff
adapter.  The engine only ever writes concrete booleans (ON = true,
OFF = false): it has no native toggle primitive. -/
structure NativeCmd where
  stateId : String
  value : Bool
deriving DecidableEq, Repr

-- ==================== JavaScript Map as an association list ====================

/-- `map.get(k)`. -/
def mapGet {α : Type} (reg : List (String × α)) (k : String) : Option α :=
  match reg.find? (fun p => p.1 == k) with
  | some p => some p.2
  | none => none

/-- `map.has(k)`. -/
def containsKey {α : Type} (reg : List (String × α)) (k : String) : Bool :=
  reg.any (fun p => p.1 == k)

/-- `map.set(k, v)`: replaces in place if the key exists (keeping the
entry's position), otherwise appends. -/
def mapSet {α : Type} (reg : List (String × α)) (k : String) (v : α) :
    List (String × α) :=
  if containsKey reg k then reg.map (fun p => if p.1 == k then (k, v) else p)
  else reg ++ [(k, v)]

/-- `for (const [mac, dev] of map) { if (pred(dev)) ... break }`: the
first entry whose value satisfies the predicate. -/
def findFirst {α : Type} (reg : List (String × α)) (p : α → Bool) :
    Option (String × α) :=
  reg.find? (fun q => p q.2)

/-- In-place mutation of the entry found by `findFirst`: replace the
value of the first entry whose value satisfies the predicate. -/
def replaceFirst {α : Type} : List (String × α) → (α → Bool) → α → List (String × α)
  | [], _, _ => []
  | q :: rest, p, v => if p q.2 then (q.1, v) :: rest else q :: replaceFirst rest p v

/-- Number of entries stored under key `k`. -/
def countKey {α : Type} (reg : List (String × α)) (k : String) : Nat :=
  reg.countP (fun p => p.1 == k)

/-- The keys of the registry are pairwise distinct (structurally
guaranteed for a JavaScript `Map`). -/
abbrev keysNodup {α : Type} (reg : List (String × α)) : Prop :=
  (reg.map Prod.fst).Nodup

-- ==================== Z2M device definition (Description Builder) ====================

/-- One feature block inside a `switch` expose of
`createZ2MDeviceDefinition` (Sonoff_to_Z2M.js, multi-relay engine). -/
structure SwitchFeature where
  access : Nat
  description : String
  endpoint : String
  label : String
  name : String
  property : String
  type : String
  value_off : String
  value_on : String
  value_toggle : String
deriving DecidableEq, Repr

/-- An entry of the `exposes` array: a per-relay switch block or the
diagnostic linkquality block. -/
inductive ExposeEntry where
  | switch (endpoint : String) (features : List SwitchFeature)
  | linkquality (access : Nat) (category description label name property unit : String)
      (value_max value_min : Nat)
deriving DecidableEq, Repr

/-- The switch feature literal of `createZ2MDeviceDefinition`, with its
two varying fields (endpoint tag and property key). -/
def switchFeature (endpoint property : String) : SwitchFeature :=
  { access := 7
    description := "On/off state of the switch"
    endpoint := endpoint
    label := "State"
    name := "state"
    property := property
    type := "binary"
    value_off := "OFF"
    value_on := "ON"
    value_toggle := "TOGGLE" }

/-- The linkquality expose literal (always present). -/
def linkqualityExpose : ExposeEntry :=
  .linkquality 1 "diagnostic" "Link quality (signal strength)" "Linkquality"
    "linkquality" "linkquality" "lqi" 255 0

/-- One entry of the `endpoints` object of the device definition. -/
structure EndpointDef where
  name : String
  inputClusters : List String
deriving DecidableEq, Repr

/-- The Zigbee2MQTT-style device definition built at discovery
(`createZ2MDeviceDefinition`); `date_code` and `network_address` are
omitted (wall clock / cosmetic only, and read by no handler). -/
structure Z2MDevice where
  ieee_address : String
  type : String
  supported : Bool
  friendly_name : String
  disabled : Bool
  model : String
  vendor : String
  exposes : List ExposeEntry
  model_id : String
  endpoints : List (String × EndpointDef)
  interview_completed : Bool
  interviewing : Bool
  interview_state : String
  software_build_id : String
deriving DecidableEq, Repr

/-- `mac.replace(/:/g, '')`. -/
def stripColons (s : String) : String :=
  String.mk (s.data.filter (fun c => c != ':'))

/-- `s.toLowerCase()` (character-wise, as in JS for ASCII input). -/
def jsToLower (s : String) : String :=
  String.mk (s.data.map Char.toLower)

/-- `s.toUpperCase()` (character-wise, as in JS for ASCII input). -/
def jsToUpper (s : String) : String :=
  String.mk (s.data.map Char.toUpper)

/-- `macToIeee`: strip colons, lower-case, prefix `0x0000`. -/
def macToIeee (mac : String) : String :=
  "0x0000" ++ jsToLower (stripColons mac)

/-- `x || 'default'` on a possibly-missing string (empty string is falsy). -/
def strOr (o : Option String) (d : String) : String :=
  match o with
  | some s => if s == "" then d else s
  | none => d

/-- `createZ2MDeviceDefinition(deviceInfo)` of the multi-relay engine.
It reads `deviceInfo.mac`, `.friendlyName`, `.model`, `.version` and
`.relayCount`, which are passed here as arguments (the record is built
in `processSonoffDevice` before this function is called). -/
def createZ2MDeviceDefinition (mac friendlyName : String)
    (model version : Option String) (relayCount : Nat) : Z2MDevice :=
  let exposes :=
    (if relayCount > 0 then
      (List.range relayCount).map (fun j =>
        ExposeEntry.switch ("l" ++ Nat.repr (j + 1))
          [switchFeature ("l" ++ Nat.repr (j + 1))
            (if relayCount == 1 then "state" else "state_l" ++ Nat.repr (j + 1))])
     else []) ++ [linkqualityExpose]
  let endpoints :=
    (List.range relayCount).map (fun j =>
      (Nat.repr (j + 1),
        { name := "l" ++ Nat.repr (j + 1)
          inputClusters := ["genBasic", "genIdentify", "genOnOff"] : EndpointDef }))
  { ieee_address := macToIeee mac
    type := "Router"
    supported := true
    friendly_name := friendlyName
    disabled := false
    model := strOr model "Generic"
    vendor := "Sonoff"
    exposes := exposes
    model_id := strOr model "Generic"
    endpoints := endpoints
    interview_completed := true
    interviewing := false
    interview_state := "SUCCESSFUL"
    software_build_id := strOr version "1.0.0" }

-- ==================== Device registry (Sonoff engine) ====================

/-- The `DeviceInfo` record stored in `sonoffDevices` by
`processSonoffDevice`.  `lastStates` holds the raw values assigned by
the handlers (`null` until known); `lastAvailable` is `null` or a
boolean. -/
structure DeviceInfo where
  mac : String
  friendlyName : String
  model : Option String
  version : Option String
  relayCount : Nat
  lastStates : List JSVal
  lastAvailable : Option Bool
  z2mDevice : Z2MDevice
deriving DecidableEq, Repr

/-- `sonoffDevices : Map<MAC, DeviceInfo>`. -/
abbrev Registry := List (String × DeviceInfo)

/-- The `CONFIG.sonoffAdapter` instance name. -/
def sonoffAdapter : String := "sonoff.0"

/-- `'ON' : 'OFF'` rendering of a truthiness test. -/
def onOff (v : JSVal) : String :=
  if jsTruthy v then "ON" else "OFF"

/-- `publishDeviceState(mac, states, available)` of the multi-relay
engine: looks the device up by MAC, builds the whole-device snapshot
(`linkquality` plus one `state`/`state_lX` key per relay, rendered from
the `states` argument) and publishes it together with the availability
marker. -/
def publishDeviceState (mac : String) (states : List JSVal) (available : Bool)
    (reg : Registry) : List Publish :=
  match mapGet reg mac with
  | none => []
  | some device =>
    let friendlyName := device.z2mDevice.friendly_name
    let payload : List (String × JVal) :=
      ("linkquality", JVal.num 255) ::
      (if device.relayCount == 1 then
        [("state", JVal.str (onOff (getJS states 0)))]
       else
        (List.range device.relayCount).map (fun i =>
          ("state_l" ++ Nat.repr (i + 1), JVal.str (onOff (getJS states i)))))
    [ { topic := friendlyName, payload := payload, retain := false },
      { topic := friendlyName ++ "/availability"
        payload := [("state", JVal.str (if available then "online" else "offline"))]
        retain := false } ]

/-- `parseGPIOs`: counts the GPIO state values that denote a relay
(224-251 = Relay1-28, 256-283 = Relay_i1-28).  The argument is the list
of values read from the existing `GPIO_*` states; non-numeric values
(including `null`) never fall in the relay ranges. -/
def parseGPIOs (gpios : List JSVal) : Nat :=
  gpios.countP (fun v =>
    match v with
    | .num n => decide ((224 ≤ n ∧ n ≤ 251) ∨ (256 ≤ n ∧ n ≤ 283))
    | _ => false)

/-- The state-store reads `processSonoffDevice` performs for one
`friendlyName`: MAC, model, version, the values of the existing
`GPIO_*` states, the `POWER` / `POWERi` values and the `alive` flag.
`none` models a `null` read; an empty MAC string is falsy and is
likewise rejected by the `if (!mac)` guard. -/
structure DiscoveryInput where
  friendlyName : String
  mac : Option String
  model : Option String
  version : Option String
  gpios : List JSVal
  powerPlain : JSVal
  powerMulti : Nat → JSVal
  alive : Option Bool

/-- `processSonoffDevice(friendlyName)`: derives the relay count,
rejects 0 or more than 28 relays, builds the `DeviceInfo` (with
`lastStates` seeded from the current `POWER`/`POWERi` values) and stores
it under the MAC with `sonoffDevices.set` — replacing any record already
stored under that MAC.  If initialization has finished and `alive` is
known, it publishes the initial state. -/
def processSonoffDevice (initFlag : Bool) (inp : DiscoveryInput) (reg : Registry) :
    Registry × List Publish :=
  match inp.mac with
  | none => (reg, [])
  | some mac =>
    if mac == "" then (reg, [])
    else
      let relayCount := parseGPIOs inp.gpios
      if relayCount == 0 || relayCount > 28 then (reg, [])
      else
        let readPower : Nat → JSVal := fun i =>
          if relayCount == 1 then inp.powerPlain else inp.powerMulti i
        let lastStates := (List.range relayCount).map (fun j => readPower (j + 1))
        let initialStates := (List.range relayCount).map (fun j =>
          if readPower (j + 1) == JSVal.null then JSVal.bool false else readPower (j + 1))
        let deviceInfo : DeviceInfo :=
          { mac := mac
            friendlyName := inp.friendlyName
            model := inp.model
            version := inp.version
            relayCount := relayCount
            lastStates := lastStates
            lastAvailable := inp.alive
            z2mDevice := createZ2MDeviceDefinition mac inp.friendlyName inp.model
              inp.version relayCount }
        let reg' := mapSet reg mac deviceInfo
        match inp.alive with
        | some a => if initFlag then (reg', publishDeviceState mac initialStates a reg') else (reg', [])
        | none => (reg', [])

/-- `handleSonoffPowerChange(friendlyName, relayNum, state)`: finds the
device by `friendlyName` (first match in map order), coerces the raw
value, and if the relay index is in range and the stored entry differs
(strict `!==`), updates `lastStates[relayIndex]` and publishes the full
snapshot.  Otherwise it emits nothing and changes nothing. -/
def handleSonoffPowerChange (friendlyName : String) (relayNum : Int) (state : JSVal)
    (reg : Registry) : Registry × List Publish :=
  match findFirst reg (fun d => d.friendlyName == friendlyName) with
  | none => (reg, [])
  | some (_, device) =>
    let newState := jsIsTrue state
    let relayIndex := relayNum - 1
    if 0 ≤ relayIndex ∧ relayIndex < (device.relayCount : Int) then
      if getJS device.lastStates relayIndex.toNat == JSVal.bool newState then (reg, [])
      else
        let device' := { device with
          lastStates := jsArraySet device.lastStates relayIndex.toNat (JSVal.bool newState) }
        let reg' := replaceFirst reg (fun d => d.friendlyName == friendlyName) device'
        (reg', publishDeviceState device'.mac device'.lastStates
          (device.lastAvailable != some false) reg')
    else (reg, [])

/-- `handleSonoffAliveChange(friendlyName, alive)`: same dedup contract
for `lastAvailable`; a change republishes the full snapshot from the
stored `lastStates`. -/
def handleSonoffAliveChange (friendlyName : String) (alive : JSVal) (reg : Registry) :
    Registry × List Publish :=
  match findFirst reg (fun d => d.friendlyName == friendlyName) with
  | none => (reg, [])
  | some (_, device) =>
    let available := jsIsTrue alive
    if device.lastAvailable == some available then (reg, [])
    else
      let device' := { device with lastAvailable := some available }
      let reg' := replaceFirst reg (fun d => d.friendlyName == friendlyName) device'
      (reg', publishDeviceState device'.mac device'.lastStates available reg')

-- ==================== Z2M command handler (Sonoff engine) ====================

/-- Association-list lookup in a parsed JSON command object
(`'key' in cmd` / `cmd[key]`; `none` = key absent). -/
def alGet (cmd : List (String × JSVal)) (k : String) : Option JSVal :=
  match cmd.find? (fun p => p.1 == k) with
  | some p => some p.2
  | none => none

/-- Resolution of one `state` command string against relay `i`:
`TOGGLE` negates the truthiness of the stored `lastStates[i]` (unknown
`null` is falsy, so `TOGGLE` yields ON), anything else compares the
upper-cased string against `'ON'`. -/
def resolveState (device : DeviceInfo) (i : Nat) (s : String) : Bool :=
  let stateCmd := jsToUpper s
  if stateCmd == "TOGGLE" then !(jsTruthy (getJS device.lastStates i))
  else stateCmd == "ON"

/-- The `powerState` id written by the `state_lX` loop of
`handleZ2MSetCommand`: plain `POWER` for a single-relay device,
`POWERi` otherwise. -/
def powerStateId (device : DeviceInfo) (i : Nat) : String :=
  if device.relayCount == 1 then sonoffAdapter ++ "." ++ device.friendlyName ++ ".POWER"
  else sonoffAdapter ++ "." ++ device.friendlyName ++ ".POWER" ++ Nat.repr i

/-- The `for (let i = 1; i <= relayCount; i++)` loop over `state_lX`
keys.  A non-string value makes `toUpperCase()` throw: the exception is
caught by the surrounding `try`, so the remaining iterations are dropped
while commands already issued stand. -/
def stateLoop (device : DeviceInfo) (cmd : List (String × JSVal)) :
    List Nat → List NativeCmd
  | [] => []
  | i :: rest =>
    match alGet cmd ("state_l" ++ Nat.repr i) with
    | none => stateLoop device cmd rest
    | some (JSVal.str s) =>
      { stateId := powerStateId device i, value := resolveState device (i - 1) s } ::
        stateLoop device cmd rest
    | some _ => []

/-- `handleZ2MSetCommand(friendlyName, payload)` of the multi-relay
engine: resolve the device by `z2mDevice.friendly_name`; parse the
payload (`none` models unparsable JSON, whose exception is caught and
logged — the event is dropped, nothing is emitted and no state is
touched); handle the bare `state` key for single-relay devices, then the
`state_l1..state_lN` loop (which for `relayCount == 1` also accepts
`state_l1` and writes the same plain `POWER` state). -/
def handleZ2MSetCommand (friendlyName : String)
    (payload : Option (List (String × JSVal))) (reg : Registry) : List NativeCmd :=
  match findFirst reg (fun d => d.z2mDevice.friendly_name == friendlyName) with
  | none => []
  | some (_, device) =>
    match payload with
    | none => []
    | some cmd =>
      match alGet cmd "state", device.relayCount == 1 with
      | some (JSVal.str s), true =>
        { stateId := sonoffAdapter ++ "." ++ device.friendlyName ++ ".POWER"
          value := resolveState device 0 s } ::
          stateLoop device cmd ((List.range device.relayCount).map (· + 1))
      | some _, true => []
      | _, _ => stateLoop device cmd ((List.range device.relayCount).map (· + 1))

-- ==================== Shutdown sweep and event loop ====================

/-- The `onStop` handler: one retained global offline marker on
`bridge/state`, then one offline availability publish per registry
entry.  It never reads `lastStates`/`lastAvailable` and never writes the
registry. -/
def onStopPublishes (reg : Registry) : List Publish :=
  { topic := "bridge/state", payload := [("state", JVal.str "offline")], retain := true } ::
  reg.map (fun p =>
    { topic := p.2.z2mDevice.friendly_name ++ "/availability"
      payload := [("state", JVal.str "offline")]
      retain := false })

/-- The inbound events the engine reacts to. -/
inductive Event where
  | discover (inp : DiscoveryInput)
  | power (friendlyName : String) (relayNum : Int) (state : JSVal)
  | alive (friendlyName : String) (v : JSVal)
  | command (friendlyName : String) (payload : Option (List (String × JSVal)))

/-- One run-to-completion event handling step: the new registry, the
outward publishes and the native commands.  The command handler never
mutates the registry (its body contains no assignment to any
`DeviceInfo` field or map entry). -/
def step (initFlag : Bool) (reg : Registry) : Event → Registry × List Publish × List NativeCmd
  | .discover inp =>
    let r := processSonoffDevice initFlag inp reg
    (r.1, r.2, [])
  | .power f rn v =>
    let r := handleSonoffPowerChange f rn v reg
    (r.1, r.2, [])
  | .alive f v =>
    let r := handleSonoffAliveChange f v reg
    (r.1, r.2, [])
  | .command f payload => (reg, [], handleZ2MSetCommand f payload reg)

/-- The registry after a sequence of events, starting from the empty
map the script begins with. -/
def runEvents (es : List (Bool × Event)) : Registry :=
  es.foldl (fun reg be => (step be.1 reg be.2).1) []

-- ==================== Tasmota bridge variant (part_000) ====================

namespace Tasmota

/-- A parsed Tasmota discovery payload (`tasmota/discovery/+/config`):
MAC, device name, topic, module, software version and the relay
indicator list. Missing JSON fields are `none`. -/
structure TasmotaConfig where
  mac : Option String
  dn : Option String
  t : Option String
  md : Option String
  sw : Option String
  rl : Option (List Int)
deriving DecidableEq, Repr

/-- An entry of the Tasmota device definition's `exposes` array. -/
inductive TExpose where
  | switch
  | linkquality
deriving DecidableEq, Repr

/-- The Zigbee2MQTT-style definition the Tasmota variant builds
(single `state` switch expose when a relay is present, plus
linkquality). -/
structure TZ2MDevice where
  ieee_address : String
  friendly_name : String
  model : String
  exposes : List TExpose
deriving DecidableEq, Repr

/-- Tasmota `macToIeee`: the MAC comes without separators. -/
def macToIeee (mac : String) : String :=
  "0x0000" ++ jsToLower mac

/-- `createZ2MDeviceDefinition(tasmotaConfig)` of the Tasmota variant.
Callers only reach it with a truthy `mac`. -/
def createZ2MDeviceDefinition (config : TasmotaConfig) : TZ2MDevice :=
  let mac := config.mac.getD ""
  let friendlyName := strOr config.dn (strOr config.t ("Tasmota_" ++ mac))
  let hasRelay := match config.rl with
    | some l => l.contains 1
    | none => false
  { ieee_address := macToIeee mac
    friendly_name := friendlyName
    model := strOr config.md "Generic"
    exposes := (if hasRelay then [TExpose.switch] else []) ++ [TExpose.linkquality] }

/-- The `DeviceInfo` stored in `tasmotaDevices`. -/
structure TDevice where
  mac : String
  config : TasmotaConfig
  z2mDevice : TZ2MDevice
  topic : Option String
  lastState : Option Bool
deriving DecidableEq, Repr

/-- `tasmotaDevices : Map<MAC, DeviceInfo>`. -/
abbrev TRegistry := List (String × TDevice)

/-- One `setState` on a `cmnd.<topic>.<command>` state of the MQTT
adapter (`sendTasmotaCommand`): `'ON'`/`'OFF'` are translated to 1/0,
other values pass through.  A missing topic interpolates as the string
`undefined`. -/
structure TCmd where
  stateId : String
  value : JSVal
deriving DecidableEq, Repr

/-- `sendTasmotaCommand(deviceTopic, command, value)`. -/
def sendTasmotaCommand (deviceTopic : Option String) (command : String)
    (value : JSVal) : TCmd :=
  let numericValue :=
    if value == JSVal.str "ON" then JSVal.num 1
    else if value == JSVal.str "OFF" then JSVal.num 0
    else value
  { stateId := "mqtt.0.cmnd." ++ deviceTopic.getD "undefined" ++ "." ++ command
    value := numericValue }

/-- `handleTasmotaDiscovery(stateId)`: the argument is the parsed
discovery payload (`none` models a missing/empty state or a JSON parse
error, both of which drop the event).  A device without a truthy MAC or
without any `rl` entry equal to 1 is skipped; a MAC already present in
the registry is left untouched (`if (tasmotaDevices.has(mac)) return`).
Only a genuinely new device is inserted and queried for its initial
POWER state.  (The bridge-topic refresh it also triggers for a new
device is outside this model.) -/
def handleTasmotaDiscovery (raw : Option TasmotaConfig) (reg : TRegistry) :
    TRegistry × List TCmd :=
  match raw with
  | none => (reg, [])
  | some config =>
    match config.mac with
    | none => (reg, [])
    | some mac =>
      if mac == "" then (reg, [])
      else
        let hasRelay := match config.rl with
          | some l => l.contains 1
          | none => false
        if !hasRelay then (reg, [])
        else if containsKey reg mac then (reg, [])
        else
          let z2mDevice := createZ2MDeviceDefinition config
          let reg' := mapSet reg mac
            { mac := mac, config := config, z2mDevice := z2mDevice
              topic := config.t, lastState := none }
          (reg', [sendTasmotaCommand config.t "POWER" JSVal.null])

/-- `String(v)` as used on `cmd.state` by the Tasmota command handler
(it never throws, unlike `.toUpperCase()` on a raw value). -/
def jsToString : JSVal → String
  | .null => "null"
  | .bool true => "true"
  | .bool false => "false"
  | .str s => s
  | .num n => n.repr

/-- `handleZ2MSetCommand(friendlyName, payload)` of the Tasmota variant:
resolve by `z2mDevice.friendly_name`; an unparsable payload (`none`) is
reported and dropped with no command and no state change; a `state`
value whose upper-cased string form is ON/OFF/TOGGLE is forwarded to the
device's `cmnd` topic. -/
def handleZ2MSetCommand (friendlyName : String)
    (payload : Option (List (String × JSVal))) (reg : TRegistry) : List TCmd :=
  match findFirst reg (fun d => d.z2mDevice.friendly_name == friendlyName) with
  | none => []
  | some (_, device) =>
    match payload with
    | none => []
    | some cmd =>
      match alGet cmd "state" with
      | none => []
      | some v =>
        let tasmotaValue := jsToUpper (jsToString v)
        if tasmotaValue == "ON" || tasmotaValue == "OFF" || tasmotaValue == "TOGGLE" then
          [sendTasmotaCommand device.topic "POWER" (JSVal.str tasmotaValue)]
        else []

end Tasmota

/-- Well-formedness of one registry entry: the relay count is in
[1,28], `lastStates` has one slot per relay, and the record's `mac`
field agrees with its map key. -/
def GoodDev (k : String) (d : DeviceInfo) : Prop :=
  1 ≤ d.relayCount ∧ d.relayCount ≤ 28 ∧ d.lastStates.length = d.relayCount ∧ d.mac = k

/-- Registry invariant: every entry is well formed and the keys are
pairwise distinct. -/
def RegInv (reg : Registry) : Prop :=
  (∀ p ∈ reg, GoodDev p.1 p.2) ∧ keysNodup reg

/-- `true` exactly on the `switch` entries of an `exposes` array. -/
def isSwitchExpose : ExposeEntry → Bool
  | .switch _ _ => true
  | _ => false

-- ==================== Concrete instances used by witnesses ====================

/-- Discovery input of a single-relay device (GPIO code 224 = Relay1),
with no initial POWER or alive value in the store. -/
def inpOne : DiscoveryInput :=
  { friendlyName := "dev1", mac := some "60:01:94:CC:5E:44", model := some "Basic"
    version := some "12.0", gpios := [JSVal.num 224], powerPlain := JSVal.null
    powerMulti := fun _ => JSVal.null, alive := none }

/-- Discovery input of a 28-relay device (28 GPIO codes in the relay
range). -/
def inpTwentyEight : DiscoveryInput :=
  { friendlyName := "big", mac := some "AA:AA:AA:AA:AA:28", model := none
    version := none, gpios := List.replicate 28 (JSVal.num 230), powerPlain := JSVal.null
    powerMulti := fun _ => JSVal.null, alive := none }

/-- Discovery input of a 2-relay device (codes 224 and 256). -/
def inpTwo : DiscoveryInput :=
  { friendlyName := "dev2", mac := some "AA:BB:CC:DD:EE:FF", model := none
    version := none, gpios := [JSVal.num 224, JSVal.num 256], powerPlain := JSVal.null
    powerMulti := fun _ => JSVal.null, alive := none }

/-- The registry after discovering `inpOne` from scratch. -/
def regOne : Registry := (processSonoffDevice false inpOne []).1

/-- `regOne` after the native event POWER=true on relay 1. -/
def regOneOn : Registry :=
  (handleSonoffPowerChange "dev1" 1 (JSVal.bool true) regOne).1

/-- The `DeviceInfo` record stored in `regOne`. -/
def devOne : DeviceInfo :=
  { mac := "60:01:94:CC:5E:44", friendlyName := "dev1", model := some "Basic"
    version := some "12.0", relayCount := 1, lastStates := [JSVal.null]
    lastAvailable := none
    z2mDevice := createZ2MDeviceDefinition "60:01:94:CC:5E:44" "dev1" (some "Basic")
      (some "12.0") 1 }

/-- The `DeviceInfo` record stored in `regOneOn`. -/
def devOneOn : DeviceInfo := { devOne with lastStates := [JSVal.bool true] }

/-- The registry after discovering `inpTwo` from scratch. -/
def regTwo : Registry := (processSonoffDevice false inpTwo []).1

/-- `regTwo` after the native event POWER1=true. -/
def regTwoOn : Registry :=
  (handleSonoffPowerChange "dev2" 1 (JSVal.bool true) regTwo).1

/-- The `DeviceInfo` record stored in `regTwoOn`. -/
def devTwoOn : DeviceInfo :=
  { mac := "AA:BB:CC:DD:EE:FF", friendlyName := "dev2", model := none
    version := none, relayCount := 2, lastStates := [JSVal.bool true, JSVal.null]
    lastAvailable := none
    z2mDevice := createZ2MDeviceDefinition "AA:BB:CC:DD:EE:FF" "dev2" none none 2 }

/-- A discovery input whose GPIO scan yields no relay at all. -/
def inpZero : DiscoveryInput :=
  { friendlyName := "empty", mac := some "00:00:00:00:00:01", model := none
    version := none, gpios := [JSVal.num 32, JSVal.null], powerPlain := JSVal.null
    powerMulti := fun _ => JSVal.null, alive := none }

/-- A concrete Tasmota discovery payload with one relay. -/
def cfgW : Tasmota.TasmotaConfig :=
  { mac := some "600194CC5E44", dn := some "lamp", t := some "lamp_t"
    md := none, sw := none, rl := some [1] }

/-- The Tasmota registry after discovering `cfgW` from scratch. -/
def tregW : Tasmota.TRegistry :=
  (Tasmota.handleTasmotaDiscovery (some cfgW) []).1

-- ==================== Association-list and array lemmas ====================

theorem findFirst_mem {α : Type} {reg : List (String × α)} {p : α → Bool}
    {q : String × α} (h : findFirst reg p = some q) : q ∈ reg :=
  List.mem_of_find?_eq_some h

theorem findFirst_pred {α : Type} {reg : List (String × α)} {p : α → Bool}
    {q : String × α} (h : findFirst reg p = some q) : p q.2 = true := by
  have h' : reg.find? (fun r => p r.2) = some q := h
  simpa using List.find?_some h'

theorem keys_replaceFirst {α : Type} (reg : List (String × α)) (p : α → Bool) (v : α) :
    (replaceFirst reg p v).map Prod.fst = reg.map Prod.fst := by
  induction reg with
  | nil => rfl
  | cons q rest ih =>
    by_cases h : p q.2
    · simp [replaceFirst, h]
    · simp [replaceFirst, h, ih]

theorem findFirst_cons {α : Type} (q : String × α) (rest : List (String × α))
    (p : α → Bool) :
    findFirst (q :: rest) p = if p q.2 then some q else findFirst rest p := by
  by_cases h : p q.2 <;> simp [findFirst, List.find?, h]

theorem findFirst_replaceFirst {α : Type} {reg : List (String × α)} {p : α → Bool}
    {k : String} {v : α} (v' : α) (h : findFirst reg p = some (k, v))
    (h' : p v' = true) :
    findFirst (replaceFirst reg p v') p = some (k, v') := by
  induction reg with
  | nil => simp [findFirst, List.find?] at h
  | cons q rest ih =>
    by_cases hq : p q.2
    · rw [findFirst_cons, if_pos hq] at h
      cases h
      simp [replaceFirst, hq, findFirst_cons, h']
    · rw [findFirst_cons, if_neg hq] at h
      simp [replaceFirst, hq, findFirst_cons, ih h]

theorem mem_keys_of_findFirst {α : Type} {reg : List (String × α)} {p : α → Bool}
    {k : String} {v : α} (h : findFirst reg p = some (k, v)) :
    k ∈ reg.map Prod.fst := by
  have := findFirst_mem h
  exact List.mem_map.mpr ⟨(k, v), this, rfl⟩

theorem mapGet_cons {α : Type} (q : String × α) (rest : List (String × α)) (k : String) :
    mapGet (q :: rest) k = if q.1 == k then some q.2 else mapGet rest k := by
  by_cases h : q.1 == k <;> simp [mapGet, List.find?, h]

theorem mapGet_replaceFirst {α : Type} {reg : List (String × α)} {p : α → Bool}
    {k : String} {v : α} (v' : α) (h : findFirst reg p = some (k, v))
    (hnd : keysNodup reg) :
    mapGet (replaceFirst reg p v') k = some v' := by
  induction reg with
  | nil => simp [findFirst, List.find?] at h
  | cons q rest ih =>
    by_cases hq : p q.2
    · rw [findFirst_cons, if_pos hq] at h
      cases h
      simp [replaceFirst, hq, mapGet_cons]
    · rw [findFirst_cons, if_neg hq] at h
      have hk : k ∈ rest.map Prod.fst := mem_keys_of_findFirst h
      have hq1 : (q.1 == k) = false := by
        refine beq_eq_false_iff_ne.mpr ?_
        intro he
        subst he
        exact (List.nodup_cons.mp hnd).1 hk
      have hrw : replaceFirst (q :: rest) p v' = q :: replaceFirst rest p v' := by
        simp [replaceFirst, hq]
      rw [hrw, mapGet_cons, hq1]
      simp only [Bool.false_eq_true, if_false]
      exact ih h (List.nodup_cons.mp hnd).2

theorem mem_replaceFirst {α : Type} {reg : List (String × α)} {p : α → Bool}
    {k : String} {v v' : α} {q : String × α} (h : findFirst reg p = some (k, v))
    (hq : q ∈ replaceFirst reg p v') : q ∈ reg ∨ q = (k, v') := by
  induction reg with
  | nil => simp [replaceFirst] at hq
  | cons r rest ih =>
    by_cases hr : p r.2
    · rw [findFirst_cons, if_pos hr] at h
      cases h
      simp only [replaceFirst, if_pos hr, List.mem_cons] at hq
      rcases hq with hq | hq
      · right; exact hq
      · left; exact List.mem_cons_of_mem _ hq
    · rw [findFirst_cons, if_neg hr] at h
      simp only [replaceFirst, if_neg hr, List.mem_cons] at hq
      rcases hq with hq | hq
      · left; exact hq ▸ List.mem_cons_self _ _
      · rcases ih h hq with h' | h'
        · left; exact List.mem_cons_of_mem _ h'
        · right; exact h'

theorem not_mem_keys_of_not_containsKey {α : Type} {reg : List (String × α)}
    {k : String} (h : containsKey reg k = false) : k ∉ reg.map Prod.fst := by
  intro hmem
  rcases List.mem_map.mp hmem with ⟨q, hq, hk⟩
  have : reg.any (fun p => p.1 == k) = true :=
    List.any_eq_true.mpr ⟨q, hq, by simp [hk]⟩
  rw [containsKey] at h
  rw [h] at this
  exact Bool.false_ne_true this

theorem keys_mapSet_of_contains {α : Type} {reg : List (String × α)} {k : String}
    (v : α) (h : containsKey reg k = true) :
    (mapSet reg k v).map Prod.fst = reg.map Prod.fst := by
  rw [mapSet, if_pos h, List.map_map]
  apply List.map_congr_left
  intro q _
  by_cases hq : q.1 = k
  · simp [hq]
  · simp [hq]

theorem keys_mapSet_of_not_contains {α : Type} {reg : List (String × α)} {k : String}
    (v : α) (h : containsKey reg k = false) :
    (mapSet reg k v).map Prod.fst = reg.map Prod.fst ++ [k] := by
  rw [mapSet, if_neg (by simp [h]), List.map_append]
  rfl

theorem mem_mapSet {α : Type} {reg : List (String × α)} {k : String} {v : α}
    {q : String × α} (hq : q ∈ mapSet reg k v) : q ∈ reg ∨ q = (k, v) := by
  rw [mapSet] at hq
  by_cases h : containsKey reg k
  · rw [if_pos h] at hq
    rcases List.mem_map.mp hq with ⟨r, hr, he⟩
    by_cases hrk : r.1 == k
    · right; simp [hrk] at he; exact he.symm
    · left; simp [hrk] at he; exact he ▸ hr
  · rw [if_neg h] at hq
    rcases List.mem_append.mp hq with h' | h'
    · left; exact h'
    · right; simpa using h'

theorem countKey_eq_keys {α : Type} (reg : List (String × α)) (k : String) :
    countKey reg k = (reg.map Prod.fst).countP (· == k) := by
  rw [countKey, List.countP_map]
  rfl

theorem countKey_eq_zero_of_not_containsKey {α : Type} {reg : List (String × α)}
    {k : String} (h : containsKey reg k = false) : countKey reg k = 0 := by
  rw [countKey, List.countP_eq_zero]
  intro q hq
  rw [containsKey] at h
  intro hqk
  have : reg.any (fun p => p.1 == k) = true := List.any_eq_true.mpr ⟨q, hq, hqk⟩
  rw [h] at this
  exact Bool.false_ne_true this

theorem countKey_append {α : Type} (l₁ l₂ : List (String × α)) (k : String) :
    countKey (l₁ ++ l₂) k = countKey l₁ k + countKey l₂ k := by
  rw [countKey, countKey, countKey, List.countP_append]

theorem countKey_mapSet_preserve {α : Type} (reg : List (String × α))
    (k : String) (v : α) (m : String) (h : countKey reg m = 1) :
    countKey (mapSet reg k v) m = 1 := by
  cases hc : containsKey reg k with
  | true => rw [countKey_eq_keys, keys_mapSet_of_contains v hc, ← countKey_eq_keys, h]
  | false =>
    have hkm : (k == m) = false := by
      by_cases he : k = m
      · subst he
        rw [countKey_eq_zero_of_not_containsKey hc] at h
        exact absurd h (by simp)
      · exact beq_eq_false_iff_ne.mpr he
    have he : mapSet reg k v = reg ++ [(k, v)] := by
      simp [mapSet, hc]
    rw [he, countKey_append, h]
    simp [countKey, List.countP_cons, hkm]

theorem getJS_set_self (l : List JSVal) (i : Nat) (v : JSVal) (h : i < l.length) :
    getJS (jsArraySet l i v) i = v := by
  rw [jsArraySet, if_pos h, getJS]
  induction l generalizing i with
  | nil => simp at h
  | cons a rest ih =>
    cases i with
    | zero => rfl
    | succ j => exact ih j (by simpa using h)

theorem length_jsArraySet (l : List JSVal) (i : Nat) (v : JSVal) (h : i < l.length) :
    (jsArraySet l i v).length = l.length := by
  rw [jsArraySet, if_pos h, List.length_set]

theorem append_availability_ne_self (s : String) : s ++ "/availability" ≠ s := by
  intro h
  have hl := congrArg String.length h
  rw [String.length_append] at hl
  have h13 : ("/availability" : String).length = 13 := rfl
  rw [h13] at hl
  omega

theorem append_availability_ne_bridge (s : String) :
    s ++ "/availability" ≠ "bridge/state" := by
  intro h
  have hl := congrArg String.length h
  rw [String.length_append] at hl
  have h13 : ("/availability" : String).length = 13 := rfl
  have h12 : ("bridge/state" : String).length = 12 := rfl
  rw [h13, h12] at hl
  omega

-- ==================== Registry invariant ====================

theorem regInv_nil : RegInv [] := by
  constructor
  · intro p hp
    simp at hp
  · simp [keysNodup]

theorem regInv_mapSet {reg : Registry} {k : String} {v : DeviceInfo}
    (h : RegInv reg) (hv : GoodDev k v) : RegInv (mapSet reg k v) := by
  refine ⟨?_, ?_⟩
  · intro q hq
    rcases mem_mapSet hq with h' | h'
    · exact h.1 q h'
    · subst h'
      exact hv
  · cases hc : containsKey reg k with
    | true => rw [keysNodup, keys_mapSet_of_contains v hc]; exact h.2
    | false =>
      rw [keysNodup, keys_mapSet_of_not_contains v hc]
      rw [List.nodup_append]
      exact ⟨h.2, List.nodup_singleton k,
        by simpa [List.disjoint_singleton] using not_mem_keys_of_not_containsKey hc⟩

theorem regInv_replaceFirst {reg : Registry} {p : DeviceInfo → Bool}
    {k : String} {d v : DeviceInfo} (h : RegInv reg)
    (hf : findFirst reg p = some (k, d)) (hv : GoodDev k v) :
    RegInv (replaceFirst reg p v) := by
  refine ⟨?_, ?_⟩
  · intro q hq
    rcases mem_replaceFirst hf hq with h' | h'
    · exact h.1 q h'
    · subst h'
      exact hv
  · rw [keysNodup, keys_replaceFirst]
    exact h.2

theorem regInv_processSonoffDevice (b : Bool) (inp : DiscoveryInput) {reg : Registry}
    (h : RegInv reg) : RegInv (processSonoffDevice b inp reg).1 := by
  rw [processSonoffDevice]
  cases inp.mac with
  | none => exact h
  | some mac =>
    by_cases hm : mac == ""
    · simp only [hm, if_true]
      exact h
    · simp only [hm, Bool.false_eq_true, if_false]
      by_cases hrc : parseGPIOs inp.gpios == 0 || parseGPIOs inp.gpios > 28
      · simp only [hrc, if_true]
        exact h
      · simp only [hrc, Bool.false_eq_true, if_false]
        have hgood : GoodDev mac
            { mac := mac
              friendlyName := inp.friendlyName
              model := inp.model
              version := inp.version
              relayCount := parseGPIOs inp.gpios
              lastStates := (List.range (parseGPIOs inp.gpios)).map (fun j =>
                if parseGPIOs inp.gpios == 1 then inp.powerPlain else inp.powerMulti (j + 1))
              lastAvailable := inp.alive
              z2mDevice := createZ2MDeviceDefinition mac inp.friendlyName inp.model
                inp.version (parseGPIOs inp.gpios) } := by
          have h' : (parseGPIOs inp.gpios == 0 || decide (parseGPIOs inp.gpios > 28)) = false := by
            simpa using hrc
          have hb := Bool.or_eq_false_iff.mp h'
          refine ⟨?_, ?_, by simp, rfl⟩
          · show 1 ≤ parseGPIOs inp.gpios
            have h0 := beq_eq_false_iff_ne.mp hb.1
            omega
          · show parseGPIOs inp.gpios ≤ 28
            have h28 := of_decide_eq_false hb.2
            omega
        cases inp.alive with
        | none => exact regInv_mapSet h hgood
        | some a =>
          cases b with
          | false => exact regInv_mapSet h hgood
          | true => exact regInv_mapSet h hgood

theorem regInv_handleSonoffPowerChange (f : String) (rn : Int) (v : JSVal)
    {reg : Registry} (h : RegInv reg) : RegInv (handleSonoffPowerChange f rn v reg).1 := by
  cases hf : findFirst reg (fun d => d.friendlyName == f) with
  | none =>
    simp only [handleSonoffPowerChange, hf]
    exact h
  | some q =>
    obtain ⟨k, device⟩ := q
    simp only [handleSonoffPowerChange, hf]
    by_cases hg : 0 ≤ rn - 1 ∧ rn - 1 < (device.relayCount : Int)
    · rw [if_pos hg]
      by_cases he : getJS device.lastStates (rn - 1).toNat == JSVal.bool (jsIsTrue v)
      · rw [if_pos he]
        exact h
      · rw [if_neg he]
        have hgd : GoodDev k device := h.1 (k, device) (findFirst_mem hf)
        have hlt : (rn - 1).toNat < device.lastStates.length := by
          obtain ⟨hg1, hg2⟩ := hg
          rw [hgd.2.2.1]
          omega
        refine regInv_replaceFirst h hf ⟨hgd.1, hgd.2.1, ?_, hgd.2.2.2⟩
        rw [length_jsArraySet _ _ _ hlt]
        exact hgd.2.2.1
    · rw [if_neg hg]
      exact h

theorem regInv_handleSonoffAliveChange (f : String) (v : JSVal)
    {reg : Registry} (h : RegInv reg) : RegInv (handleSonoffAliveChange f v reg).1 := by
  cases hf : findFirst reg (fun d => d.friendlyName == f) with
  | none =>
    simp only [handleSonoffAliveChange, hf]
    exact h
  | some q =>
    obtain ⟨k, device⟩ := q
    simp only [handleSonoffAliveChange, hf]
    by_cases he : device.lastAvailable == some (jsIsTrue v)
    · rw [if_pos he]
      exact h
    · rw [if_neg he]
      have hgd : GoodDev k device := h.1 (k, device) (findFirst_mem hf)
      exact regInv_replaceFirst h hf ⟨hgd.1, hgd.2.1, hgd.2.2.1, hgd.2.2.2⟩

theorem regInv_step (b : Bool) {reg : Registry} (e : Event) (h : RegInv reg) :
    RegInv (step b reg e).1 := by
  cases e with
  | discover inp => exact regInv_processSonoffDevice b inp h
  | power f rn v => exact regInv_handleSonoffPowerChange f rn v h
  | alive f v => exact regInv_handleSonoffAliveChange f v h
  | command f payload => exact h

theorem regInv_foldl (l : List (Bool × Event)) (reg : Registry) (h : RegInv reg) :
    RegInv (l.foldl (fun r be => (step be.1 r be.2).1) reg) := by
  induction l generalizing reg with
  | nil => exact h
  | cons be rest ih => exact ih _ (regInv_step be.1 be.2 h)

theorem regInv_runEvents (es : List (Bool × Event)) : RegInv (runEvents es) :=
  regInv_foldl es [] regInv_nil

-- ==================== Claim theorems ====================

/-- Claim C8: an inbound command payload for a known device that fails
to parse as a key-value map (invalid JSON, modelled as payload `none`)
is dropped: the step issues no native command, emits no publish and
returns the registry unchanged — in both the multi-relay Sonoff engine
and the Tasmota variant.  The handlers are total functions, so the
process does not terminate on such input. -/
theorem c8_malformed_payload_drop :
    (∀ (b : Bool) (reg : Registry) (f : String),
      step b reg (Event.command f none) = (reg, [], [])) ∧
    (∀ (treg : Tasmota.TRegistry) (f : String),
      Tasmota.handleZ2MSetCommand f none treg = []) := by
  constructor
  · intro b reg f
    have hcmd : handleZ2MSetCommand f none reg = [] := by
      cases hf : findFirst reg (fun d => d.z2mDevice.friendly_name == f) with
      | none => simp [handleZ2MSetCommand, hf]
      | some q =>
        obtain ⟨k, d⟩ := q
        simp [handleZ2MSetCommand, hf]
    simp [step, hcmd]
  · intro treg f
    cases hf : findFirst treg (fun d => d.z2mDevice.friendly_name == f) with
    | none => simp [Tasmota.handleZ2MSetCommand, hf]
    | some q =>
      obtain ⟨k, d⟩ := q
      simp [Tasmota.handleZ2MSetCommand, hf]

/-- Claim C9: the shutdown sweep over a registry with N devices
publishes exactly N + 1 messages: exactly one on `bridge/state`
(carrying the offline marker), and exactly N non-retained offline
publishes (one availability message per registered device); the result
depends only on the stored devices' friendly names, not on any
`lastAvailable` value (and `onStopPublishes` takes the registry
read-only, mirroring the non-mutating loop of `onStop`). -/
theorem c9_shutdown_sweep :
    (∀ reg : Registry,
      (onStopPublishes reg).length = reg.length + 1 ∧
      (onStopPublishes reg).countP (fun pub =>
        pub.topic == "bridge/state" &&
        (pub.payload == [("state", JVal.str "offline")])) = 1 ∧
      (onStopPublishes reg).countP (fun pub =>
        (pub.payload == [("state", JVal.str "offline")]) && !pub.retain) = reg.length) ∧
    (∀ (reg : Registry) (g : String × DeviceInfo → Option Bool),
      onStopPublishes (reg.map (fun p => (p.1, { p.2 with lastAvailable := g p }))) =
        onStopPublishes reg) := by
  constructor
  · intro reg
    refine ⟨by simp [onStopPublishes], ?_, ?_⟩
    · rw [onStopPublishes, List.countP_cons]
      have hz : (reg.map (fun p =>
          ({ topic := p.2.z2mDevice.friendly_name ++ "/availability"
             payload := [("state", JVal.str "offline")]
             retain := false } : Publish))).countP (fun pub =>
          pub.topic == "bridge/state" &&
          (pub.payload == [("state", JVal.str "offline")])) = 0 := by
        rw [List.countP_eq_zero]
        intro pub hpub
        rcases List.mem_map.mp hpub with ⟨p, _, hp⟩
        subst hp
        simp [beq_eq_false_iff_ne.mpr (append_availability_ne_bridge p.2.z2mDevice.friendly_name)]
      rw [hz]
      simp
    · rw [onStopPublishes, List.countP_cons]
      have hall : (reg.map (fun p =>
          ({ topic := p.2.z2mDevice.friendly_name ++ "/availability"
             payload := [("state", JVal.str "offline")]
             retain := false } : Publish))).countP (fun pub =>
          (pub.payload == [("state", JVal.str "offline")]) && !pub.retain) =
          reg.length := by
        have hlen : (reg.map (fun p =>
            ({ topic := p.2.z2mDevice.friendly_name ++ "/availability"
               payload := [("state", JVal.str "offline")]
               retain := false } : Publish))).length = reg.length :=
          List.length_map _ _
        rw [← hlen, List.countP_eq_length]
        intro pub hpub
        rcases List.mem_map.mp hpub with ⟨p, _, hp⟩
        subst hp
        simp
      rw [hall]
      simp
  · intro reg g
    rw [onStopPublishes, onStopPublishes, List.map_map]
    rfl

/-- Claim C6: `createZ2MDeviceDefinition` exposes, for `relayCount == 1`,
exactly one switch block whose single feature carries the unsuffixed
property key `"state"` (plus the linkquality block); for
`relayCount == N ≥ 2` it exposes exactly N switch blocks, the i-th
carrying property key `state_li` and endpoint identifier `li`; and for
every relay count the endpoint map names are `l1..lN`. -/
theorem c6_endpoint_naming (mac fn : String) (mo ve : Option String) (n : Nat) :
    ((createZ2MDeviceDefinition mac fn mo ve 1).exposes =
      [ExposeEntry.switch "l1" [switchFeature "l1" "state"], linkqualityExpose]) ∧
    (2 ≤ n →
      (createZ2MDeviceDefinition mac fn mo ve n).exposes.countP isSwitchExpose = n ∧
      ∀ i, i < n →
        ExposeEntry.switch ("l" ++ Nat.repr (i + 1))
            [switchFeature ("l" ++ Nat.repr (i + 1)) ("state_l" ++ Nat.repr (i + 1))] ∈
          (createZ2MDeviceDefinition mac fn mo ve n).exposes) ∧
    ((createZ2MDeviceDefinition mac fn mo ve n).endpoints.map (fun p => p.2.name) =
      (List.range n).map (fun i => "l" ++ Nat.repr (i + 1))) := by
  refine ⟨rfl, ?_, ?_⟩
  · intro hn
    have hn1 : (n == 1) = false := by
      refine beq_eq_false_iff_ne.mpr ?_
      omega
    have hn0 : n > 0 := by omega
    have hexp : (createZ2MDeviceDefinition mac fn mo ve n).exposes =
        (List.range n).map (fun j =>
          ExposeEntry.switch ("l" ++ Nat.repr (j + 1))
            [switchFeature ("l" ++ Nat.repr (j + 1)) ("state_l" ++ Nat.repr (j + 1))]) ++
          [linkqualityExpose] := by
      show (if n > 0 then _ else []) ++ [linkqualityExpose] = _
      rw [if_pos hn0]
      congr 1
      apply List.map_congr_left
      intro j _
      rw [hn1]
      simp
    constructor
    · rw [hexp, List.countP_append]
      have h1 : (List.countP isSwitchExpose [linkqualityExpose]) = 0 := rfl
      have h2 : ((List.range n).map (fun j =>
          ExposeEntry.switch ("l" ++ Nat.repr (j + 1))
            [switchFeature ("l" ++ Nat.repr (j + 1)) ("state_l" ++ Nat.repr (j + 1))])).countP
          isSwitchExpose =
          ((List.range n).map (fun j =>
            ExposeEntry.switch ("l" ++ Nat.repr (j + 1))
              [switchFeature ("l" ++ Nat.repr (j + 1)) ("state_l" ++ Nat.repr (j + 1))])).length := by
        rw [List.countP_eq_length]
        intro e he
        rcases List.mem_map.mp he with ⟨j, _, hj⟩
        subst hj
        rfl
      rw [h1, h2, List.length_map, List.length_range]
      omega
    · intro i hi
      rw [hexp]
      refine List.mem_append_left _ ?_
      exact List.mem_map.mpr ⟨i, List.mem_range.mpr hi, rfl⟩
  · rw [show (createZ2MDeviceDefinition mac fn mo ve n).endpoints =
      (List.range n).map (fun j =>
        (Nat.repr (j + 1),
          ({ name := "l" ++ Nat.repr (j + 1)
             inputClusters := ["genBasic", "genIdentify", "genOnOff"] } : EndpointDef))) from rfl]
    rw [List.map_map]
    rfl

/-- Witness for C6 at relay count 3: the multi-relay branch yields three
switch features with keys `state_l1..state_l3`. -/
theorem c6_endpoint_naming_witness :
    (2 ≤ 3) ∧
    ((createZ2MDeviceDefinition "AA" "w6" none none 1).exposes =
      [ExposeEntry.switch "l1" [switchFeature "l1" "state"], linkqualityExpose]) ∧
    ((createZ2MDeviceDefinition "AA" "w6" none none 3).exposes.countP isSwitchExpose = 3 ∧
      ∀ i, i < 3 →
        ExposeEntry.switch ("l" ++ Nat.repr (i + 1))
            [switchFeature ("l" ++ Nat.repr (i + 1)) ("state_l" ++ Nat.repr (i + 1))] ∈
          (createZ2MDeviceDefinition "AA" "w6" none none 3).exposes) :=
  ⟨by decide, (c6_endpoint_naming "AA" "w6" none none 3).1,
    (c6_endpoint_naming "AA" "w6" none none 3).2.1 (by decide)⟩

/-- Claim C5: discovery rejects a derived relay count of 0 or of 29 and
above — the registry is returned unchanged, so the device is never
inserted — while counts 1 and 28 are accepted (shown on concrete
inputs); consequently every entry of any registry reachable by the event
loop satisfies `1 ≤ relayCount ≤ 28`. -/
theorem c5_relay_count_bounds :
    (∀ (b : Bool) (inp : DiscoveryInput) (reg : Registry),
      parseGPIOs inp.gpios = 0 ∨ 28 < parseGPIOs inp.gpios →
      (processSonoffDevice b inp reg).1 = reg) ∧
    (parseGPIOs inpOne.gpios = 1 ∧
      containsKey (processSonoffDevice false inpOne []).1 "60:01:94:CC:5E:44" = true) ∧
    (parseGPIOs inpTwentyEight.gpios = 28 ∧
      containsKey (processSonoffDevice false inpTwentyEight []).1 "AA:AA:AA:AA:AA:28" = true) ∧
    (∀ es : List (Bool × Event), ∀ p ∈ runEvents es,
      1 ≤ p.2.relayCount ∧ p.2.relayCount ≤ 28) := by
  refine ⟨?_, ⟨by decide, by decide⟩, ⟨by decide, by decide⟩, ?_⟩
  · intro b inp reg h
    have hrc : (parseGPIOs inp.gpios == 0 || decide (parseGPIOs inp.gpios > 28)) = true := by
      rcases h with h | h
      · simp [h]
      · simp [h]
    cases hm : inp.mac with
    | none => simp [processSonoffDevice, hm]
    | some mac =>
      by_cases hms : mac == ""
      · simp [processSonoffDevice, hm, hms]
      · simp [processSonoffDevice, hm, hms, hrc]
  · intro es p hp
    have h := (regInv_runEvents es).1 p hp
    exact ⟨h.1, h.2.1⟩

/-- Witness for C5: a relay count of 0 (no GPIO in the relay ranges) is
rejected on a concrete input, and the concretely discovered single-relay
device satisfies the bounds. -/
theorem c5_relay_count_bounds_witness :
    (parseGPIOs inpZero.gpios = 0 ∨ 28 < parseGPIOs inpZero.gpios) ∧
    (processSonoffDevice true inpZero regOne).1 = regOne ∧
    (("60:01:94:CC:5E:44", devOne) ∈ runEvents [(false, Event.discover inpOne)] ∧
      1 ≤ devOne.relayCount ∧ devOne.relayCount ≤ 28) :=
  ⟨Or.inl (by decide),
    c5_relay_count_bounds.1 true inpZero regOne (Or.inl (by decide)),
    by decide,
    c5_relay_count_bounds.2.2.2 [(false, Event.discover inpOne)]
      ("60:01:94:CC:5E:44", devOne) (by decide)⟩

/-- Claim C7: along every event trace from the empty registry, each
registered device satisfies `lastStates.length = relayCount` (discovery
creates exactly `relayCount` slots and state updates write in place);
moreover a power event whose relay index falls outside
`[0, relayCount)` changes nothing and publishes nothing. -/
theorem c7_laststates_length :
    (∀ es : List (Bool × Event), ∀ p ∈ runEvents es,
      p.2.lastStates.length = p.2.relayCount) ∧
    (∀ (reg : Registry) (f : String) (rn : Int) (v : JSVal) (k : String)
        (device : DeviceInfo),
      findFirst reg (fun d => d.friendlyName == f) = some (k, device) →
      ¬(0 ≤ rn - 1 ∧ rn - 1 < (device.relayCount : Int)) →
      handleSonoffPowerChange f rn v reg = (reg, [])) := by
  constructor
  · intro es p hp
    exact ((regInv_runEvents es).1 p hp).2.2.1
  · intro reg f rn v k device hf hout
    simp only [handleSonoffPowerChange, hf]
    rw [if_neg hout]

/-- Witness for C7: the concretely discovered single-relay device has
one `lastStates` slot, and a power event for relay 5 on it is a
no-op. -/
theorem c7_laststates_length_witness :
    (("60:01:94:CC:5E:44", devOne) ∈ runEvents [(false, Event.discover inpOne)] ∧
      devOne.lastStates.length = devOne.relayCount) ∧
    (findFirst regOne (fun d => d.friendlyName == "dev1") =
        some ("60:01:94:CC:5E:44", devOne) ∧
      ¬(0 ≤ (5 : Int) - 1 ∧ (5 : Int) - 1 < (devOne.relayCount : Int)) ∧
      handleSonoffPowerChange "dev1" 5 (JSVal.bool true) regOne = (regOne, [])) :=
  ⟨⟨by decide,
    c7_laststates_length.1 [(false, Event.discover inpOne)]
      ("60:01:94:CC:5E:44", devOne) (by decide)⟩,
    by decide, by decide,
    c7_laststates_length.2 regOne "dev1" 5 (JSVal.bool true) "60:01:94:CC:5E:44" devOne
      (by decide) (by decide)⟩

/-- Claim C1 counterexample: re-processing a discovery event for an
already-registered MAC is not a no-op in `processSonoffDevice`.  After
discovering `inpOne` and then observing POWER=true (so the stored
`lastStates` is `[true]`), running the same discovery again rebuilds the
`DeviceInfo` from the state store and overwrites the record (its
`lastStates` falls back to `[null]`): the registry changes, refuting
"the second processing does not replace or mutate the existing Device
record". -/
theorem c1_second_discovery_not_noop :
    (processSonoffDevice false inpOne regOneOn).1 ≠ regOneOn := by
  decide

/-- Claim C1 as amended: a second discovery still leaves exactly one
registry entry for the nativeId (`Map.set` replaces in place), and in
the Tasmota variant's `handleTasmotaDiscovery` — which checks
`tasmotaDevices.has(mac)` first — the second discovery is a genuine
no-op (registry untouched, no command sent); but in the Sonoff engine's
`processSonoffDevice` the record itself is rebuilt from the current
state store (last discovery wins), not preserved. -/
theorem c1_discovery_idempotence_amended :
    (∀ (treg : Tasmota.TRegistry) (config : Tasmota.TasmotaConfig) (mac : String),
      config.mac = some mac → mac ≠ "" → containsKey treg mac = true →
      Tasmota.handleTasmotaDiscovery (some config) treg = (treg, [])) ∧
    (∀ (b : Bool) (inp : DiscoveryInput) (reg : Registry) (m : String),
      countKey reg m = 1 → countKey (processSonoffDevice b inp reg).1 m = 1) := by
  constructor
  · intro treg config mac hmac hne hhas
    have hms : (mac == "") = false := beq_eq_false_iff_ne.mpr hne
    cases hrl : config.rl with
    | none => simp [Tasmota.handleTasmotaDiscovery, hmac, hms, hrl]
    | some l =>
      by_cases hc : l.contains 1
      · simp [Tasmota.handleTasmotaDiscovery, hmac, hms, hrl, hc, hhas]
      · simp only [Tasmota.handleTasmotaDiscovery, hmac, hms, hrl]
        simp only [Bool.false_eq_true, if_false]
        simp
        exact fun _ => hhas
  · intro b inp reg m h
    cases hm : inp.mac with
    | none => simpa [processSonoffDevice, hm] using h
    | some mac =>
      by_cases hms : mac == ""
      · simpa [processSonoffDevice, hm, hms] using h
      · by_cases hrc : (parseGPIOs inp.gpios == 0 || decide (parseGPIOs inp.gpios > 28)) = true
        · simpa [processSonoffDevice, hm, hms, hrc] using h
        · have hset := countKey_mapSet_preserve reg mac
            ({ mac := mac
               friendlyName := inp.friendlyName
               model := inp.model
               version := inp.version
               relayCount := parseGPIOs inp.gpios
               lastStates := (List.range (parseGPIOs inp.gpios)).map (fun j =>
                 if parseGPIOs inp.gpios == 1 then inp.powerPlain else inp.powerMulti (j + 1))
               lastAvailable := inp.alive
               z2mDevice := createZ2MDeviceDefinition mac inp.friendlyName inp.model
                 inp.version (parseGPIOs inp.gpios) } : DeviceInfo) m h
          cases ha : inp.alive with
          | none => simpa [processSonoffDevice, hm, hms, hrc, ha] using hset
          | some a =>
            cases b with
            | false => simpa [processSonoffDevice, hm, hms, hrc, ha] using hset
            | true => simpa [processSonoffDevice, hm, hms, hrc, ha] using hset

/-- Witness for the amended C1: a second Tasmota discovery for a known
MAC is a no-op, and a second Sonoff discovery keeps exactly one entry
under the MAC. -/
theorem c1_discovery_idempotence_amended_witness :
    (cfgW.mac = some "600194CC5E44") ∧
    ("600194CC5E44" ≠ "") ∧
    (containsKey tregW "600194CC5E44" = true) ∧
    (Tasmota.handleTasmotaDiscovery (some cfgW) tregW = (tregW, [])) ∧
    (countKey regOneOn "60:01:94:CC:5E:44" = 1 ∧
      countKey (processSonoffDevice false inpOne regOneOn).1 "60:01:94:CC:5E:44" = 1) :=
  ⟨rfl, by decide, by decide,
    c1_discovery_idempotence_amended.1 tregW cfgW "600194CC5E44" rfl (by decide)
      (by decide),
    by decide,
    c1_discovery_idempotence_amended.2 false inpOne regOneOn "60:01:94:CC:5E:44"
      (by decide)⟩

/-- Claim C4: for a registered single-relay device the command payload
`{"state":"TOGGLE"}` yields exactly one native command on the device's
sole `POWER` state, with the concrete value resolved by the translator
itself against the stored `lastStates[0]`: stored `true` yields OFF
(`false`), unknown (`null`, falsy) yields ON (`true`).  Native commands
carry only concrete booleans by construction (`NativeCmd.value : Bool`),
never a toggle. -/
theorem c4_toggle_resolution :
    ∀ (reg : Registry) (f k : String) (device : DeviceInfo),
      findFirst reg (fun d => d.z2mDevice.friendly_name == f) = some (k, device) →
      device.relayCount = 1 →
      (device.lastStates = [JSVal.bool true] →
        handleZ2MSetCommand f (some [("state", JSVal.str "TOGGLE")]) reg =
          [{ stateId := sonoffAdapter ++ "." ++ device.friendlyName ++ ".POWER"
             value := false }]) ∧
      (getJS device.lastStates 0 = JSVal.null →
        handleZ2MSetCommand f (some [("state", JSVal.str "TOGGLE")]) reg =
          [{ stateId := sonoffAdapter ++ "." ++ device.friendlyName ++ ".POWER"
             value := true }]) := by
  intro reg f k device hf h1
  have hcall : handleZ2MSetCommand f (some [("state", JSVal.str "TOGGLE")]) reg =
      [{ stateId := sonoffAdapter ++ "." ++ device.friendlyName ++ ".POWER"
         value := !(jsTruthy (getJS device.lastStates 0)) }] := by
    simp only [handleZ2MSetCommand, hf, h1]
    rfl
  constructor
  · intro hls
    rw [hcall, hls]
    rfl
  · intro h0
    rw [hcall, h0]
    rfl

/-- Witness for C4: on the concretely discovered single-relay device
with `lastStates = [true]`, TOGGLE issues exactly `POWER := false`
(OFF); on the freshly discovered one (`lastStates = [null]`) it issues
`POWER := true` (ON). -/
theorem c4_toggle_resolution_witness :
    (findFirst regOneOn (fun d => d.z2mDevice.friendly_name == "dev1") =
        some ("60:01:94:CC:5E:44", devOneOn) ∧
      devOneOn.relayCount = 1 ∧ devOneOn.lastStates = [JSVal.bool true] ∧
      handleZ2MSetCommand "dev1" (some [("state", JSVal.str "TOGGLE")]) regOneOn =
        [{ stateId := sonoffAdapter ++ "." ++ devOneOn.friendlyName ++ ".POWER"
           value := false }]) ∧
    (getJS devOne.lastStates 0 = JSVal.null ∧
      handleZ2MSetCommand "dev1" (some [("state", JSVal.str "TOGGLE")]) regOne =
        [{ stateId := sonoffAdapter ++ "." ++ devOne.friendlyName ++ ".POWER"
           value := true }]) :=
  ⟨⟨by decide, by decide, by decide,
    (c4_toggle_resolution regOneOn "dev1" "60:01:94:CC:5E:44" devOneOn (by decide)
      (by decide)).1 (by decide)⟩,
    ⟨by decide,
    (c4_toggle_resolution regOne "dev1" "60:01:94:CC:5E:44" devOne (by decide)
      (by decide)).2 (by decide)⟩⟩

/-- Claim C10: for a registered single-relay device the `state_lX` loop
of `handleZ2MSetCommand` also runs (for X = 1), so the key `state_l1`
is accepted in addition to the bare `state`: a payload with only
`state_l1` issues one native command on the sole `POWER` state, and a
payload carrying both keys issues two native commands to that same
state id. -/
theorem c10_state_l1_alias :
    ∀ (reg : Registry) (f k : String) (device : DeviceInfo),
      findFirst reg (fun d => d.z2mDevice.friendly_name == f) = some (k, device) →
      device.relayCount = 1 →
      (handleZ2MSetCommand f (some [("state_l1", JSVal.str "ON")]) reg =
        [{ stateId := sonoffAdapter ++ "." ++ device.friendlyName ++ ".POWER"
           value := true }]) ∧
      (handleZ2MSetCommand f
          (some [("state", JSVal.str "ON"), ("state_l1", JSVal.str "ON")]) reg =
        [{ stateId := sonoffAdapter ++ "." ++ device.friendlyName ++ ".POWER"
           value := true },
         { stateId := sonoffAdapter ++ "." ++ device.friendlyName ++ ".POWER"
           value := true }]) := by
  intro reg f k device hf h1
  have hps : powerStateId device 1 =
      sonoffAdapter ++ "." ++ device.friendlyName ++ ".POWER" := by
    simp [powerStateId, h1]
  have hres : resolveState device 0 "ON" = true := rfl
  constructor
  · have e1 : handleZ2MSetCommand f (some [("state_l1", JSVal.str "ON")]) reg =
        stateLoop device [("state_l1", JSVal.str "ON")]
          ((List.range device.relayCount).map (· + 1)) := by
      simp only [handleZ2MSetCommand, hf]
      rfl
    rw [e1, h1]
    rw [show stateLoop device [("state_l1", JSVal.str "ON")]
        ((List.range 1).map (· + 1)) =
      [{ stateId := powerStateId device 1, value := resolveState device 0 "ON" }] from rfl]
    rw [hps, hres]
  · have e2 : handleZ2MSetCommand f
        (some [("state", JSVal.str "ON"), ("state_l1", JSVal.str "ON")]) reg =
        { stateId := sonoffAdapter ++ "." ++ device.friendlyName ++ ".POWER"
          value := resolveState device 0 "ON" } ::
          stateLoop device [("state", JSVal.str "ON"), ("state_l1", JSVal.str "ON")]
            ((List.range device.relayCount).map (· + 1)) := by
      simp only [handleZ2MSetCommand, hf, h1]
      rfl
    rw [e2, h1, hres]
    rw [show stateLoop device [("state", JSVal.str "ON"), ("state_l1", JSVal.str "ON")]
        ((List.range 1).map (· + 1)) =
      [{ stateId := powerStateId device 1, value := resolveState device 0 "ON" }] from rfl]
    rw [hps, hres]

/-- Witness for C10 on the concretely discovered single-relay device. -/
theorem c10_state_l1_alias_witness :
    (findFirst regOne (fun d => d.z2mDevice.friendly_name == "dev1") =
        some ("60:01:94:CC:5E:44", devOne) ∧
      devOne.relayCount = 1) ∧
    (handleZ2MSetCommand "dev1" (some [("state_l1", JSVal.str "ON")]) regOne =
      [{ stateId := sonoffAdapter ++ "." ++ devOne.friendlyName ++ ".POWER"
         value := true }]) ∧
    (handleZ2MSetCommand "dev1"
        (some [("state", JSVal.str "ON"), ("state_l1", JSVal.str "ON")]) regOne =
      [{ stateId := sonoffAdapter ++ "." ++ devOne.friendlyName ++ ".POWER"
         value := true },
       { stateId := sonoffAdapter ++ "." ++ devOne.friendlyName ++ ".POWER"
         value := true }]) :=
  ⟨⟨by decide, by decide⟩,
    (c10_state_l1_alias regOne "dev1" "60:01:94:CC:5E:44" devOne (by decide)
      (by decide)).1,
    (c10_state_l1_alias regOne "dev1" "60:01:94:CC:5E:44" devOne (by decide)
      (by decide)).2⟩

/-- Claim C2: for a registered device and an in-range endpoint index,
a native state-change event whose coerced boolean differs from the
stored `lastStates` entry produces exactly one outward state publish
(the snapshot on the device's friendly-name topic); repeating the very
same event immediately afterwards finds the stored entry equal to the
observed value, so the handler emits nothing and performs no further
mutation (registry returned unchanged, publish list empty). -/
theorem c2_state_dedup :
    ∀ (reg : Registry) (f : String) (rn : Int) (v : JSVal) (k : String)
      (device : DeviceInfo),
      findFirst reg (fun d => d.friendlyName == f) = some (k, device) →
      device.mac = k →
      keysNodup reg →
      device.lastStates.length = device.relayCount →
      0 ≤ rn - 1 → rn - 1 < (device.relayCount : Int) →
      getJS device.lastStates (rn - 1).toNat ≠ JSVal.bool (jsIsTrue v) →
      ((handleSonoffPowerChange f rn v reg).2.countP
          (fun pub => pub.topic == device.z2mDevice.friendly_name) = 1) ∧
      handleSonoffPowerChange f rn v (handleSonoffPowerChange f rn v reg).1 =
        ((handleSonoffPowerChange f rn v reg).1, []) := by
  intro reg f rn v k device hf hmac hnd hlen h0 hlt hne
  have hg : 0 ≤ rn - 1 ∧ rn - 1 < (device.relayCount : Int) := ⟨h0, hlt⟩
  have hbeq : (getJS device.lastStates (rn - 1).toNat == JSVal.bool (jsIsTrue v)) = false :=
    beq_eq_false_iff_ne.mpr hne
  have hstep : handleSonoffPowerChange f rn v reg =
      (replaceFirst reg (fun d => d.friendlyName == f)
        { device with lastStates :=
            jsArraySet device.lastStates (rn - 1).toNat (JSVal.bool (jsIsTrue v)) },
       publishDeviceState device.mac
         (jsArraySet device.lastStates (rn - 1).toNat (JSVal.bool (jsIsTrue v)))
         (device.lastAvailable != some false)
         (replaceFirst reg (fun d => d.friendlyName == f)
           { device with lastStates :=
               jsArraySet device.lastStates (rn - 1).toNat (JSVal.bool (jsIsTrue v)) })) := by
    simp only [handleSonoffPowerChange, hf]
    rw [if_pos hg, if_neg (by rw [hbeq]; exact Bool.false_ne_true)]
  have hpred : (device.friendlyName == f) = true := by
    have := findFirst_pred hf
    simpa using this
  have hfind' : findFirst (replaceFirst reg (fun d => d.friendlyName == f) { device with lastStates := jsArraySet device.lastStates (rn - 1).toNat (JSVal.bool (jsIsTrue v)) }) (fun d => d.friendlyName == f) = some (k, { device with lastStates := jsArraySet device.lastStates (rn - 1).toNat (JSVal.bool (jsIsTrue v)) }) :=
    findFirst_replaceFirst _ hf hpred
  have hget : mapGet (replaceFirst reg (fun d => d.friendlyName == f) { device with lastStates := jsArraySet device.lastStates (rn - 1).toNat (JSVal.bool (jsIsTrue v)) }) k = some { device with lastStates := jsArraySet device.lastStates (rn - 1).toNat (JSVal.bool (jsIsTrue v)) } :=
    mapGet_replaceFirst _ hf hnd
  have hidx : (rn - 1).toNat < device.lastStates.length := by
    rw [hlen]
    omega
  constructor
  · rw [hstep]
    show (publishDeviceState device.mac (jsArraySet device.lastStates (rn - 1).toNat (JSVal.bool (jsIsTrue v))) (device.lastAvailable != some false) (replaceFirst reg (fun d => d.friendlyName == f) { device with lastStates := jsArraySet device.lastStates (rn - 1).toNat (JSVal.bool (jsIsTrue v)) })).countP (fun pub => pub.topic == device.z2mDevice.friendly_name) = 1
    have hget2 : mapGet (replaceFirst reg (fun d => d.friendlyName == f) { device with lastStates := jsArraySet device.lastStates (rn - 1).toNat (JSVal.bool (jsIsTrue v)) }) device.mac = some { device with lastStates := jsArraySet device.lastStates (rn - 1).toNat (JSVal.bool (jsIsTrue v)) } := by
      nth_rewrite 2 [hmac]
      exact hget
    simp only [publishDeviceState, hget2]
    simp only [List.countP_cons, List.countP_nil]
    have ht1 : ((device.z2mDevice.friendly_name : String) ==
        device.z2mDevice.friendly_name) = true := by simp
    have ht2 : ((device.z2mDevice.friendly_name ++ "/availability" : String) ==
        device.z2mDevice.friendly_name) = false :=
      beq_eq_false_iff_ne.mpr (append_availability_ne_self _)
    simp [ht1, ht2]
  · rw [hstep]
    show handleSonoffPowerChange f rn v (replaceFirst reg (fun d => d.friendlyName == f) { device with lastStates := jsArraySet device.lastStates (rn - 1).toNat (JSVal.bool (jsIsTrue v)) }) = _
    simp only [handleSonoffPowerChange, hfind']
    rw [if_pos hg]
    have hsame : (getJS
        (jsArraySet device.lastStates (rn - 1).toNat (JSVal.bool (jsIsTrue v)))
        (rn - 1).toNat == JSVal.bool (jsIsTrue v)) = true := by
      rw [getJS_set_self _ _ _ hidx]
      simp
    rw [if_pos hsame]

/-- Witness for C2 on the concretely discovered single-relay device:
POWER=true arrives twice; the first event publishes one snapshot, the
repeat publishes nothing and leaves the registry unchanged. -/
theorem c2_state_dedup_witness :
    (findFirst regOne (fun d => d.friendlyName == "dev1") =
        some ("60:01:94:CC:5E:44", devOne) ∧
      devOne.mac = "60:01:94:CC:5E:44" ∧
      keysNodup regOne ∧
      devOne.lastStates.length = devOne.relayCount ∧
      0 ≤ (1 : Int) - 1 ∧ (1 : Int) - 1 < (devOne.relayCount : Int) ∧
      getJS devOne.lastStates ((1 : Int) - 1).toNat ≠
        JSVal.bool (jsIsTrue (JSVal.bool true))) ∧
    ((handleSonoffPowerChange "dev1" 1 (JSVal.bool true) regOne).2.countP
        (fun pub => pub.topic == devOne.z2mDevice.friendly_name) = 1) ∧
    handleSonoffPowerChange "dev1" 1 (JSVal.bool true)
        (handleSonoffPowerChange "dev1" 1 (JSVal.bool true) regOne).1 =
      ((handleSonoffPowerChange "dev1" 1 (JSVal.bool true) regOne).1, []) :=
  ⟨⟨by decide, by decide, by decide, by decide, by decide, by decide, by decide⟩,
    c2_state_dedup regOne "dev1" 1 (JSVal.bool true) "60:01:94:CC:5E:44" devOne
      (by decide) (by decide) (by decide) (by decide) (by decide) (by decide)
      (by decide)⟩

/-- Claim C3: when a state change on a multi-relay device (at least two
relays) triggers a publish, the snapshot on the friendly-name topic
contains `linkquality:255` plus one `state_lX` key per endpoint — each
rendering the value stored in the registry after the update, not just
the endpoint that changed — and nothing else (`relayCount + 1` payload
entries). -/
theorem c3_snapshot_completeness :
    ∀ (reg : Registry) (f : String) (rn : Int) (v : JSVal) (k : String)
      (device : DeviceInfo),
      findFirst reg (fun d => d.friendlyName == f) = some (k, device) →
      device.mac = k →
      keysNodup reg →
      device.lastStates.length = device.relayCount →
      2 ≤ device.relayCount →
      0 ≤ rn - 1 → rn - 1 < (device.relayCount : Int) →
      getJS device.lastStates (rn - 1).toNat ≠ JSVal.bool (jsIsTrue v) →
      ∃ pub rest, (handleSonoffPowerChange f rn v reg).2 = pub :: rest ∧
        pub.topic = device.z2mDevice.friendly_name ∧
        pub.payload.length = device.relayCount + 1 ∧
        ("linkquality", JVal.num 255) ∈ pub.payload ∧
        ∀ device', mapGet (handleSonoffPowerChange f rn v reg).1 k = some device' →
          ∀ i, i < device.relayCount →
            ("state_l" ++ Nat.repr (i + 1), JVal.str (onOff (getJS device'.lastStates i)))
              ∈ pub.payload := by
  intro reg f rn v k device hf hmac hnd hlen hrc2 h0 hlt hne
  have hg : 0 ≤ rn - 1 ∧ rn - 1 < (device.relayCount : Int) := ⟨h0, hlt⟩
  have hbeq : (getJS device.lastStates (rn - 1).toNat == JSVal.bool (jsIsTrue v)) = false :=
    beq_eq_false_iff_ne.mpr hne
  have hrc1 : (device.relayCount == 1) = false := by
    refine beq_eq_false_iff_ne.mpr ?_
    omega
  have hstep : handleSonoffPowerChange f rn v reg =
      (replaceFirst reg (fun d => d.friendlyName == f) { device with lastStates := jsArraySet device.lastStates (rn - 1).toNat (JSVal.bool (jsIsTrue v)) },
       publishDeviceState device.mac
         (jsArraySet device.lastStates (rn - 1).toNat (JSVal.bool (jsIsTrue v)))
         (device.lastAvailable != some false)
         (replaceFirst reg (fun d => d.friendlyName == f) { device with lastStates := jsArraySet device.lastStates (rn - 1).toNat (JSVal.bool (jsIsTrue v)) })) := by
    simp only [handleSonoffPowerChange, hf]
    rw [if_pos hg, if_neg (by rw [hbeq]; exact Bool.false_ne_true)]
  have hget : mapGet (replaceFirst reg (fun d => d.friendlyName == f) { device with lastStates := jsArraySet device.lastStates (rn - 1).toNat (JSVal.bool (jsIsTrue v)) }) k = some { device with lastStates := jsArraySet device.lastStates (rn - 1).toNat (JSVal.bool (jsIsTrue v)) } :=
    mapGet_replaceFirst _ hf hnd
  have hget2 : mapGet (replaceFirst reg (fun d => d.friendlyName == f) { device with lastStates := jsArraySet device.lastStates (rn - 1).toNat (JSVal.bool (jsIsTrue v)) }) device.mac = some { device with lastStates := jsArraySet device.lastStates (rn - 1).toNat (JSVal.bool (jsIsTrue v)) } := by
    nth_rewrite 2 [hmac]
    exact hget
  have hpub : (handleSonoffPowerChange f rn v reg).2 =
      ({ topic := device.z2mDevice.friendly_name
         payload := ("linkquality", JVal.num 255) ::
           (List.range device.relayCount).map (fun i =>
             ("state_l" ++ Nat.repr (i + 1),
               JVal.str (onOff (getJS (jsArraySet device.lastStates (rn - 1).toNat (JSVal.bool (jsIsTrue v))) i))))
         retain := false } : Publish) ::
      [{ topic := device.z2mDevice.friendly_name ++ "/availability"
         payload := [("state", JVal.str (if (device.lastAvailable != some false) then "online" else "offline"))]
         retain := false }] := by
    rw [hstep]
    show publishDeviceState device.mac (jsArraySet device.lastStates (rn - 1).toNat (JSVal.bool (jsIsTrue v))) (device.lastAvailable != some false) (replaceFirst reg (fun d => d.friendlyName == f) { device with lastStates := jsArraySet device.lastStates (rn - 1).toNat (JSVal.bool (jsIsTrue v)) }) = _
    simp only [publishDeviceState, hget2, hrc1]
    rfl
  refine ⟨_, _, hpub, rfl, ?_, ?_, ?_⟩
  · simp
  · exact List.mem_cons_self _ _
  · intro device' hmg i hi
    have : some ({ device with lastStates := jsArraySet device.lastStates (rn - 1).toNat (JSVal.bool (jsIsTrue v)) } : DeviceInfo) = some device' := by
      rw [← hmg, hstep]
      exact hget.symm
    have hdev : device' = { device with lastStates := jsArraySet device.lastStates (rn - 1).toNat (JSVal.bool (jsIsTrue v)) } :=
      (Option.some.inj this).symm
    subst hdev
    refine List.mem_cons_of_mem _ ?_
    exact List.mem_map.mpr ⟨i, List.mem_range.mpr hi, rfl⟩

/-- Witness for C3 on the spec's scenario: register the 2-relay device,
observe `state_l1 = ON`, then `state_l2 = OFF`.  The second published
snapshot is exactly
`{linkquality:255, state_l1:"ON", state_l2:"OFF"}` — the first
endpoint's stored value is preserved although only the second
changed. -/
theorem c3_snapshot_completeness_witness :
    (findFirst regTwoOn (fun d => d.friendlyName == "dev2") =
        some ("AA:BB:CC:DD:EE:FF", devTwoOn) ∧
      devTwoOn.mac = "AA:BB:CC:DD:EE:FF" ∧
      keysNodup regTwoOn ∧
      devTwoOn.lastStates.length = devTwoOn.relayCount ∧
      2 ≤ devTwoOn.relayCount ∧
      0 ≤ (2 : Int) - 1 ∧ (2 : Int) - 1 < (devTwoOn.relayCount : Int) ∧
      getJS devTwoOn.lastStates ((2 : Int) - 1).toNat ≠
        JSVal.bool (jsIsTrue (JSVal.bool false))) ∧
    ((handleSonoffPowerChange "dev2" 2 (JSVal.bool false) regTwoOn).2.head? =
      some { topic := "dev2"
             payload := [("linkquality", JVal.num 255), ("state_l1", JVal.str "ON"),
               ("state_l2", JVal.str "OFF")]
             retain := false }) ∧
    (∃ pub rest,
      (handleSonoffPowerChange "dev2" 2 (JSVal.bool false) regTwoOn).2 = pub :: rest ∧
      pub.topic = devTwoOn.z2mDevice.friendly_name ∧
      pub.payload.length = devTwoOn.relayCount + 1 ∧
      ("linkquality", JVal.num 255) ∈ pub.payload ∧
      ∀ device', mapGet (handleSonoffPowerChange "dev2" 2 (JSVal.bool false) regTwoOn).1
          "AA:BB:CC:DD:EE:FF" = some device' →
        ∀ i, i < devTwoOn.relayCount →
          ("state_l" ++ Nat.repr (i + 1), JVal.str (onOff (getJS device'.lastStates i)))
            ∈ pub.payload) :=
  ⟨⟨by decide, by decide, by decide, by decide, by decide, by decide, by decide,
    by decide⟩,
    by decide,
    c3_snapshot_completeness regTwoOn "dev2" 2 (JSVal.bool false) "AA:BB:CC:DD:EE:FF"
      devTwoOn (by decide) (by decide) (by decide) (by decide) (by decide) (by decide)
      (by decide) (by decide)⟩
